import Mathlib

/-!
Verification of the `orders` service (a CRUD REST backend over two record
types, `Order` and `Item`) against its natural-language specification.

The persistence-layer records and route handlers of `service/models.py` and
`service/routes.py` are shallowly embedded below:

* Python `float` prices become `ℚ` (only equality and order are used);
* Python `datetime.date` becomes a `Date` structure with explicit
  `isoformat` / `fromisoformat` string conversion;
* a JSON request/response dictionary becomes a structure whose fields are
  `Option`-wrapped (outer `Option`: key presence; an inner `Option`
  represents a JSON `null` where the code can produce one);
* the relational store becomes a `DB` structure holding the two tables and
  the autoincrement counters; `db.session.commit()` effects are made
  explicit state updates;
* `flask.abort` and uncaught `DataValidationError`s become constructors of
  the handler-result type `HResult`.
-/

namespace OrdersService

/-- A calendar date, standing for Python `datetime.date`. -/
structure Date where
  year : Nat
  month : Nat
  day : Nat
deriving DecidableEq, Repr

/-- Leap-year test of the proleptic Gregorian calendar used by `datetime`. -/
def Date.isLeap (y : Nat) : Bool :=
  (y % 4 == 0 && y % 100 != 0) || y % 400 == 0

/-- Number of days of month `m` in year `y` (Python `calendar` rules). -/
def Date.daysInMonth (y m : Nat) : Nat :=
  if m = 2 then (if Date.isLeap y then 29 else 28)
  else if m = 4 ∨ m = 6 ∨ m = 9 ∨ m = 11 then 30
  else 31

/-- The dates representable by Python `datetime.date` (year 1..9999,
valid month and day). -/
def Date.valid (d : Date) : Bool :=
  1 ≤ d.year && d.year ≤ 9999 && 1 ≤ d.month && d.month ≤ 12 &&
    1 ≤ d.day && d.day ≤ Date.daysInMonth d.year d.month

/-- The ASCII digit character for `n < 10`. -/
def digitChar (n : Nat) : Char := Char.ofNat (48 + n)

/-- Zero-padded four-digit rendering (`%04d` for years below 10000). -/
def pad4 (n : Nat) : List Char :=
  [digitChar (n / 1000), digitChar (n / 100 % 10),
   digitChar (n / 10 % 10), digitChar (n % 10)]

/-- Zero-padded two-digit rendering (`%02d` for numbers below 100). -/
def pad2 (n : Nat) : List Char :=
  [digitChar (n / 10), digitChar (n % 10)]

/-- Python `date.isoformat()`: the `YYYY-MM-DD` rendering of a date. -/
def Date.isoformat (d : Date) : String :=
  ⟨pad4 d.year ++ '-' :: (pad2 d.month ++ '-' :: pad2 d.day)⟩

/-- Numeric value of an ASCII digit character, `none` on non-digits. -/
def digitVal (c : Char) : Option Nat :=
  if 48 ≤ c.toNat ∧ c.toNat ≤ 57 then some (c.toNat - 48) else none

/-- Python `date.fromisoformat`: parses exactly `YYYY-MM-DD` and checks the
calendar validity of the parsed triple; `none` stands for the `ValueError`
raised on any other input. -/
def Date.fromisoformat (s : String) : Option Date :=
  match s.data with
  | [y1, y2, y3, y4, c1, m1, m2, c2, d1, d2] =>
    if c1 = '-' ∧ c2 = '-' then
      match digitVal y1, digitVal y2, digitVal y3, digitVal y4,
            digitVal m1, digitVal m2, digitVal d1, digitVal d2 with
      | some a, some b, some c, some d, some e, some f, some g, some h =>
        let dt : Date := ⟨a * 1000 + b * 100 + c * 10 + d, e * 10 + f, g * 10 + h⟩
        if dt.valid then some dt else none
      | _, _, _, _, _, _, _, _ => none
    else none
  | _ => none

/-- In-memory `Item` record (`models.py`, class `Item`).  Every attribute of
a freshly constructed SQLAlchemy instance is `None`, hence every field is
`Option`-typed with default `none`. -/
structure Item where
  id : Option Int := none
  product_id : Option Int := none
  price : Option ℚ := none
  quantity : Option Int := none
  order_id : Option Int := none
  status : Option String := none
deriving DecidableEq, Repr

/-- JSON dictionary shape exchanged for an `Item`.  Outer `Option`: the key
is present; inner `Option`: the value may be JSON `null`. -/
structure ItemDict where
  id : Option (Option Int) := none
  product_id : Option (Option Int) := none
  price : Option (Option ℚ) := none
  quantity : Option (Option Int) := none
  order_id : Option (Option Int) := none
  status : Option (Option String) := none
deriving DecidableEq, Repr

/-- `Item.serialize` (`models.py` lines 68-73): emits all six keys with the
current attribute values. -/
def Item.serialize (self : Item) : ItemDict :=
  { id := some self.id, product_id := some self.product_id,
    price := some self.price, quantity := some self.quantity,
    order_id := some self.order_id, status := some self.status }

/-- `Item.deserialize` (`models.py` lines 75-94): reads the six keys in
source order; the first absent key raises
`DataValidationError("Invalid Item: missing <key>")`. -/
def Item.deserialize (self : Item) (data : ItemDict) : Except String Item :=
  match data.id with
  | none => Except.error ("Invalid Item: missing id")
  | some v_id =>
    match data.product_id with
    | none => Except.error ("Invalid Item: missing product_id")
    | some v_pid =>
      match data.price with
      | none => Except.error ("Invalid Item: missing price")
      | some v_price =>
        match data.quantity with
        | none => Except.error ("Invalid Item: missing quantity")
        | some v_qty =>
          match data.order_id with
          | none => Except.error ("Invalid Item: missing order_id")
          | some v_oid =>
            match data.status with
            | none => Except.error ("Invalid Item: missing status")
            | some v_status =>
              Except.ok { self with
                id := v_id, product_id := v_pid, price := v_price,
                quantity := v_qty, order_id := v_oid, status := v_status }

/-- `Item.find_by_price` (`models.py` lines 139-148):
`query.filter(price <= max_price).filter(price >= min_price)`.  A SQL
comparison against a NULL column is not satisfied, hence items with no
price fall out of both filters. -/
def Item.find_by_price (items : List Item) (max_price min_price : ℚ) : List Item :=
  (items.filter (fun it =>
      match it.price with
      | some p => decide (p ≤ max_price)
      | none => false)).filter (fun it =>
      match it.price with
      | some p => decide (min_price ≤ p)
      | none => false)

/-- In-memory `Order` record (`models.py`, class `Order`).  The `items`
field is the relationship collection, loaded from the item table when the
order is read from the store. -/
structure Order where
  id : Option Int := none
  name : Option String := none
  address : Option String := none
  date_created : Option Date := none
  items : List Item := []
deriving DecidableEq, Repr

/-- JSON dictionary shape exchanged for an `Order`. -/
structure OrderDict where
  id : Option (Option Int) := none
  name : Option (Option String) := none
  address : Option (Option String) := none
  date_created : Option String := none
  items : Option (List ItemDict) := none
deriving DecidableEq, Repr

/-- Errors escaping the deserializers: `DataValidationError` carries its
message; `valueError` stands for the uncaught `ValueError` of
`date.fromisoformat` on a malformed date string. -/
inductive DesErr where
  | validation (msg : String)
  | valueError
deriving DecidableEq, Repr

/-- `Order.serialize` (`models.py` lines 197-210).  It calls
`self.date_created.isoformat()`, so a record whose date is unset would
crash (`none` result); the store never produces such a record. -/
def Order.serialize (self : Order) : Option OrderDict :=
  match self.date_created with
  | none => none
  | some d =>
    some { id := some self.id, name := some self.name,
           address := some self.address,
           date_created := some d.isoformat,
           items := some (self.items.map Item.serialize) }

/-- Deserialization of a nested item list: each entry goes through
`Item().deserialize`, its `DataValidationError` propagating out of the
order deserialization. -/
def desItems : List ItemDict → Except DesErr (List Item)
  | [] => Except.ok []
  | d :: rest =>
    match Item.deserialize {} d with
    | Except.error m => Except.error (DesErr.validation m)
    | Except.ok it =>
      match desItems rest with
      | Except.error e => Except.error e
      | Except.ok its => Except.ok (it :: its)

/-- `Order.deserialize` (`models.py` lines 212-238): `name` and `address`
are required (first missing key raises
`DataValidationError("Invalid order: missing <key>")`); `date_created` is
parsed only when present; a present `items` list is deserialized and
appended to the existing `self.items` collection. -/
def Order.deserialize (self : Order) (data : OrderDict) : Except DesErr Order :=
  match data.name with
  | none => Except.error (DesErr.validation ("Invalid order: missing name"))
  | some nm =>
    match data.address with
    | none => Except.error (DesErr.validation ("Invalid order: missing address"))
    | some ad =>
      match (match data.date_created with
             | none => some self.date_created
             | some s => (Date.fromisoformat s).map some) with
      | none => Except.error DesErr.valueError
      | some dc =>
        match desItems (data.items.getD []) with
        | Except.error e => Except.error e
        | Except.ok its =>
          Except.ok { self with
            name := nm, address := ad,
            date_created := dc, items := self.items ++ its }

/-- The relational store: the `order` and `item` tables (rows carried as
records; a stored order row's `items` field is irrelevant, the relationship
is recomputed on lookup), the two autoincrement counters, and the insertion
date `today` used for the `date_created` column default. -/
structure DB where
  orders : List Order := []
  items : List Item := []
  next_order_id : Int := 1
  next_item_id : Int := 1
  today : Date := ⟨2024, 1, 1⟩
deriving DecidableEq, Repr

/-- `Order.find` (`models.py` lines 263-274): primary-key lookup; the
returned instance carries its relationship collection, the items whose
`order_id` column matches. -/
def Order.find (db : DB) (by_id : Int) : Option Order :=
  (db.orders.find? (fun o => o.id == some by_id)).map
    (fun o => { o with items := db.items.filter (fun it => it.order_id == some by_id) })

/-- `Item.find` (`models.py` lines 113-117): primary-key lookup. -/
def Item.find (db : DB) (by_id : Int) : Option Item :=
  db.items.find? (fun it => it.id == some by_id)

/-- `Item.find_by_order_id` (`models.py` lines 129-137). -/
def Item.find_by_order_id (db : DB) (order_id : Int) : List Item :=
  db.items.filter (fun it => it.order_id == some order_id)

/-- Session flush of the transient items appended to an order's
relationship collection: each is inserted with its `order_id` set by the
backref, an explicitly supplied primary key kept, and a missing primary key
drawn from the autoincrement counter.  Returns the inserted rows and the
new counter. -/
def flushNewItems (nextId : Int) (oid : Int) : List Item → List Item × Int
  | [] => ([], nextId)
  | it :: rest =>
    match it.id with
    | some n =>
      let r := flushNewItems nextId oid rest
      ({ it with id := some n, order_id := some oid } :: r.1, r.2)
    | none =>
      let r := flushNewItems (nextId + 1) oid rest
      ({ it with id := some nextId, order_id := some oid } :: r.1, r.2)

/-- Request headers: only the `Content-Type` header matters here. -/
structure Headers where
  content_type : Option String := none
deriving DecidableEq, Repr

/-- Result of one route handler: a JSON body with a status code, an empty
`204` body, a `flask.abort` with status and message, an exception escaping
the handler (`raised`), or a Python-level crash that the store's invariants
rule out (`crash`). -/
inductive HResult where
  | orderBody (code : Nat) (body : OrderDict)
  | orderList (code : Nat) (body : List OrderDict)
  | itemBody (code : Nat) (body : ItemDict)
  | itemList (code : Nat) (body : List ItemDict)
  | empty (code : Nat)
  | aborted (code : Nat) (msg : String)
  | raised (e : DesErr)
  | crash
deriving DecidableEq, Repr

/-- The single-quote character, used in the handlers' abort messages. -/
def sq : String := ⟨[Char.ofNat 39]⟩

/-- An id rendered between single quotes, as the f-strings of `routes.py`
render it. -/
def quoted (i : Int) : String := sq ++ toString i ++ sq

/-- `check_content_type` (`routes.py` lines 344-360): `none` when the
header equals `application/json`, otherwise the 415 abort. -/
def check_content_type (h : Headers) : Option HResult :=
  match h.content_type with
  | none => some (HResult.aborted 415 ("Content-Type must be application/json"))
  | some ct =>
    if ct = "application/json" then none
    else some (HResult.aborted 415 ("Content-Type must be application/json"))

/-- `get_orders` (`routes.py` lines 55-69): retrieve a single order.  Note
the 404 message labels the missing order an "Item". -/
def get_orders (db : DB) (order_id : Int) : HResult :=
  match Order.find db order_id with
  | none =>
    HResult.aborted 404 ("Item with id " ++ quoted order_id ++ " was not found.")
  | some order =>
    match order.serialize with
    | some b => HResult.orderBody 200 b
    | none => HResult.crash

/-- `create_orders` (`routes.py` lines 75-91): content-type check, then
`Order().deserialize(json)`, then `create()` (fresh id, column defaults for
a null `address` and a missing `date_created`, nested transient items
flushed), then the serialized order with 201. -/
def create_orders (db : DB) (h : Headers) (data : OrderDict) : HResult × DB :=
  match check_content_type h with
  | some r => (r, db)
  | none =>
    match Order.deserialize {} data with
    | Except.error e => (HResult.raised e, db)
    | Except.ok order1 =>
      let oid := db.next_order_id
      let fl := flushNewItems db.next_item_id oid order1.items
      let row : Order := { order1 with
        id := some oid, items := [],
        address := some (order1.address.getD ("Invalid Address")),
        date_created := some (order1.date_created.getD db.today) }
      let db1 : DB := { db with
        orders := db.orders ++ [row], items := db.items ++ fl.1,
        next_order_id := oid + 1, next_item_id := fl.2 }
      match ({ row with items := fl.1 } : Order).serialize with
      | some b => (HResult.orderBody 201 b, db1)
      | none => (HResult.crash, db1)

/-- `update_orders` (`routes.py` lines 97-116): content-type check, 404 on
an unknown order, then in-place `deserialize` (which appends the payload
items to the loaded collection), `id` forced back, and `update()`
committing the scalar columns and inserting the appended transient
items. -/
def update_orders (db : DB) (h : Headers) (order_id : Int) (data : OrderDict) :
    HResult × DB :=
  match check_content_type h with
  | some r => (r, db)
  | none =>
    match Order.find db order_id with
    | none =>
      (HResult.aborted 404
        ("Order with id " ++ quoted order_id ++ " was not found."), db)
    | some order =>
      match order.deserialize data with
      | Except.error e => (HResult.raised e, db)
      | Except.ok order1 =>
        let order2 : Order := { order1 with id := some order_id }
        let newItems := order1.items.drop order.items.length
        let fl := flushNewItems db.next_item_id order_id newItems
        let order3 : Order := { order2 with items := order.items ++ fl.1 }
        let db1 : DB := { db with
          orders := db.orders.map (fun r =>
            if r.id == some order_id then
              { r with name := order2.name, address := order2.address,
                       date_created := order2.date_created }
            else r),
          items := db.items ++ fl.1, next_item_id := fl.2 }
        match order3.serialize with
        | some b => (HResult.orderBody 200 b, db1)
        | none => (HResult.crash, db1)

/-- `delete_orders` (`routes.py` lines 122-143): 404 on an unknown order;
otherwise the items-by-order-id query (always truthy, so its bulk `delete`
always runs) and the order row itself are removed, with 204. -/
def delete_orders (db : DB) (order_id : Int) : HResult × DB :=
  match Order.find db order_id with
  | none =>
    (HResult.aborted 404
      ("Order with id " ++ quoted order_id ++ " was not found."), db)
  | some _ =>
    let db1 : DB := { db with
      items := db.items.filter (fun it => !(it.order_id == some order_id)) }
    let db2 : DB := { db1 with
      orders := db1.orders.filter (fun o => !(o.id == some order_id)) }
    (HResult.empty 204, db2)

/-- `list_item` (`routes.py` lines 149-164): GET of one item under an
order.  Only the order's existence is checked; the item is fetched by its
own id with no membership check. -/
def list_item (db : DB) (order_id item_id : Int) : HResult :=
  match Order.find db order_id with
  | none =>
    HResult.aborted 404 ("Order with id " ++ quoted order_id ++ " was not found.")
  | some _ =>
    match Item.find db item_id with
    | none =>
      HResult.aborted 404 ("Item with id " ++ quoted item_id ++ " was not found.")
    | some item => HResult.itemBody 200 item.serialize

/-- `delete_items` (`routes.py` lines 186-202): 404 on an unknown order;
otherwise the item, looked up by its own id only, is deleted when it
exists, and 204 is returned either way. -/
def delete_items (db : DB) (order_id item_id : Int) : HResult × DB :=
  match Order.find db order_id with
  | none =>
    (HResult.aborted 404
      ("Order with id " ++ quoted order_id ++ " was not found."), db)
  | some _ =>
    match Item.find db item_id with
    | none => (HResult.empty 204, db)
    | some _ =>
      (HResult.empty 204,
       { db with items := db.items.filter (fun it => !(it.id == some item_id)) })

/-- `create_items` (`routes.py` lines 208-232): content-type check, 404 on
an unknown order, `Item().deserialize(data)` (whose `DataValidationError`
escapes the handler), `order_id` forced to the path id, and `create()`
assigning a fresh primary key. -/
def create_items (db : DB) (h : Headers) (order_id : Int) (data : ItemDict) :
    HResult × DB :=
  match check_content_type h with
  | some r => (r, db)
  | none =>
    match Order.find db order_id with
    | none =>
      (HResult.aborted 404
        ("Order with id " ++ quoted order_id ++ " was not found."), db)
    | some _ =>
      match Item.deserialize {} data with
      | Except.error m => (HResult.raised (DesErr.validation m), db)
      | Except.ok item0 =>
        let item2 : Item := { item0 with
          order_id := some order_id, id := some db.next_item_id }
        (HResult.itemBody 201 item2.serialize,
         { db with items := db.items ++ [item2],
                   next_item_id := db.next_item_id + 1 })

/-- `update_item` (`routes.py` lines 238-267): content-type check, then the
two 404 checks (note the messages: a missing order is labelled "Item", a
missing item "Order"), then in-place `deserialize`, `id` forced back, and
the commit persisting the mutated row. -/
def update_item (db : DB) (h : Headers) (order_id item_id : Int) (data : ItemDict) :
    HResult × DB :=
  match check_content_type h with
  | some r => (r, db)
  | none =>
    match Order.find db order_id with
    | none =>
      (HResult.aborted 404
        ("Item with id " ++ quoted order_id ++ " was not found."), db)
    | some _ =>
      match Item.find db item_id with
      | none =>
        (HResult.aborted 404
          ("Order with id " ++ quoted item_id ++ " could not be found."), db)
      | some item =>
        match item.deserialize data with
        | Except.error m => (HResult.raised (DesErr.validation m), db)
        | Except.ok item1 =>
          let item2 : Item := { item1 with id := some item_id }
          (HResult.itemBody 200 item2.serialize,
           { db with items := db.items.map (fun it =>
               if it.id == some item_id then item2 else it) })

/-- Prefix test on character lists (used to state substring facts about
the handlers' messages). -/
def isPrefOf : List Char → List Char → Bool
  | [], _ => true
  | _ :: _, [] => false
  | a :: as, b :: bs => a == b && isPrefOf as bs

/-- Substring test on character lists. -/
def hasSub (pat : List Char) : List Char → Bool
  | [] => isPrefOf pat []
  | c :: rest => isPrefOf pat (c :: rest) || hasSub pat rest

/-! ### Concrete sample data for witnesses and counterexamples -/

/-- Headers carrying the correct JSON content type. -/
def jsonHeaders : Headers := { content_type := some ("application/json") }

/-- A persisted order row with primary key 1. -/
def orderRow1 : Order :=
  { id := some 1, name := some ("old"), address := some ("olda"),
    date_created := some ⟨2020, 1, 2⟩ }

/-- A persisted item row with primary key 10 belonging to order 1. -/
def item10 : Item :=
  { id := some 10, product_id := some 3, price := some 5, quantity := some 1,
    order_id := some 1, status := some ("s") }

/-- Store holding order 1 together with its item 10. -/
def dbResidue : DB :=
  { orders := [orderRow1], items := [item10],
    next_order_id := 2, next_item_id := 11 }

/-- Store holding order 1 and an item 10 that belongs to the absent
order 2. -/
def dbStray : DB :=
  { orders := [orderRow1], items := [{ item10 with order_id := some 2 }],
    next_order_id := 2, next_item_id := 11 }

/-- Store holding the single empty order 5. -/
def dbOrder5 : DB :=
  { orders := [{ id := some 5, name := some ("n"), address := some ("a"),
                 date_created := some ⟨2024, 1, 1⟩ }],
    next_order_id := 6 }

/-- The item payload of the spec scenario for `POST /orders/5/items`:
exactly the keys `product_id`, `price`, `quantity`, `status`. -/
def scenarioItemPayload : ItemDict :=
  { product_id := some (some 7), price := some (some (999 / 100)),
    quantity := some (some 2), status := some (some ("pending")) }

/-- The same payload extended with `id` and `order_id` keys (null values). -/
def fullItemPayload : ItemDict :=
  { scenarioItemPayload with id := some none, order_id := some none }

/-- An order update payload renaming order 1 and emptying its item list. -/
def renamePayload : OrderDict :=
  { name := some (some ("new")), address := some (some ("newa")),
    items := some [] }

/-! ### Helper lemmas -/

theorem digitVal_digitChar (k : Nat) (hk : k < 10) :
    digitVal (digitChar k) = some k := by
  interval_cases k <;> decide

theorem fromisoformat_isoformat (d : Date) (hv : d.valid = true) :
    Date.fromisoformat d.isoformat = some d := by
  obtain ⟨y, m, dd⟩ := d
  simp only [Date.valid, Bool.and_eq_true, decide_eq_true_eq] at hv
  obtain ⟨⟨⟨⟨⟨hy1, hy2⟩, hm1⟩, hm2⟩, hd1⟩, hd2⟩ := hv
  have hdm : Date.daysInMonth y m ≤ 31 := by
    unfold Date.daysInMonth
    split
    · split <;> omega
    · split <;> omega
  simp only [Date.isoformat, pad4, pad2, Date.fromisoformat, List.cons_append,
    List.nil_append]
  rw [digitVal_digitChar (y / 1000) (by omega),
      digitVal_digitChar (y / 100 % 10) (by omega),
      digitVal_digitChar (y / 10 % 10) (by omega),
      digitVal_digitChar (y % 10) (by omega),
      digitVal_digitChar (m / 10) (by omega),
      digitVal_digitChar (m % 10) (by omega),
      digitVal_digitChar (dd / 10) (by omega),
      digitVal_digitChar (dd % 10) (by omega)]
  have ey : y / 1000 * 1000 + y / 100 % 10 * 100 + y / 10 % 10 * 10 + y % 10 = y := by
    omega
  have em : m / 10 * 10 + m % 10 = m := by omega
  have ed : dd / 10 * 10 + dd % 10 = dd := by omega
  simp only [ey, em, ed, and_self, if_true]
  have hvv : Date.valid ⟨y, m, dd⟩ = true := by
    simp only [Date.valid, Bool.and_eq_true, decide_eq_true_eq]
    exact ⟨⟨⟨⟨⟨hy1, hy2⟩, hm1⟩, hm2⟩, hd1⟩, hd2⟩
  simp [hvv]

theorem Item.deserialize_serialize (x y : Item) :
    Item.deserialize y (Item.serialize x) = Except.ok x := rfl

theorem desItems_map_serialize (l : List Item) :
    desItems (l.map Item.serialize) = Except.ok l := by
  induction l with
  | nil => rfl
  | cons x xs ih =>
    simp [desItems, Item.deserialize_serialize, ih]

/-! ### Claim C1 -/

/-- C1, counterexample: deleting the nonexistent order 999 from the empty
store does not return 204; it aborts with 404, contrary to the claimed
idempotent no-op. -/
theorem C1_cex :
    delete_orders {} 999 =
      (HResult.aborted 404
        ("Order with id " ++ quoted 999 ++ " was not found."), {}) ∧
    (delete_orders {} 999).1 ≠ HResult.empty 204 := by
  exact ⟨rfl, by decide⟩

/-- C1, amended: for every order id that does not correspond to an existing
order, `DELETE /orders/{id}` aborts with 404 and a message naming the id;
the store is left unchanged.  (The code is not idempotent: the 204 no-op of
the claim does not happen.) -/
theorem C1_delete_unknown_order_404 (db : DB) (oid : Int)
    (h : Order.find db oid = none) :
    delete_orders db oid =
      (HResult.aborted 404
        ("Order with id " ++ quoted oid ++ " was not found."), db) := by
  simp [delete_orders, h]

/-- C1, witness at the empty store and id 7. -/
theorem C1_delete_unknown_order_404_witness :
    Order.find {} 7 = none ∧
    delete_orders {} 7 =
      (HResult.aborted 404
        ("Order with id " ++ quoted 7 ++ " was not found."), {}) :=
  ⟨rfl, C1_delete_unknown_order_404 {} 7 rfl⟩

/-! ### Claim C3 -/

/-- C3, counterexample: an order payload supplying `name` and `items` but
no `address` key does not deserialize successfully; it raises the
validation error naming `address`, contrary to the claimed optionality. -/
theorem C3_cex :
    Order.deserialize {} { name := some (some ("A")), items := some [] } =
      Except.error (DesErr.validation ("Invalid order: missing address")) := rfl

/-- C3, amended: the `address` key is required by `Order.deserialize`: for
every input mapping that supplies `name` but omits `address`, deserialization
fails with the validation error naming `address` (the sentinel column
default, spelled `Invalid Address`, is applied only to a null value at
insert time, never to an omitted key). -/
theorem C3_address_required (self : Order) (data : OrderDict) (nm : Option String)
    (hn : data.name = some nm) (ha : data.address = none) :
    Order.deserialize self data =
      Except.error (DesErr.validation ("Invalid order: missing address")) := by
  simp [Order.deserialize, hn, ha]

/-- C3, witness at a concrete payload carrying only `name` and `items`. -/
theorem C3_address_required_witness :
    (OrderDict.name { name := some (some ("A")), items := some [] }) = some (some ("A")) ∧
    (OrderDict.address { name := some (some ("A")), items := some [] }) = none ∧
    Order.deserialize {} { name := some (some ("A")), items := some [] } =
      Except.error (DesErr.validation ("Invalid order: missing address")) :=
  ⟨rfl, rfl, C3_address_required {} _ (some ("A")) rfl rfl⟩

/-! ### Claim C5 -/

/-- C5: the price-range filter is inclusive at both bounds: an item with a
price is in `find_by_price max_price min_price` exactly when it is in the
table and `min_price ≤ price ≤ max_price`. -/
theorem C5_find_by_price_inclusive (items : List Item) (max_price min_price p : ℚ)
    (it : Item) (hp : it.price = some p) :
    it ∈ Item.find_by_price items max_price min_price ↔
      it ∈ items ∧ min_price ≤ p ∧ p ≤ max_price := by
  simp only [Item.find_by_price, List.mem_filter, hp, decide_eq_true_eq]
  tauto

/-- C5, witness: an item whose price equals both bounds is included. -/
theorem C5_find_by_price_inclusive_witness :
    (Item.price { price := some 5 }) = some 5 ∧
    (({ price := some 5 } : Item) ∈ Item.find_by_price [{ price := some 5 }] 5 5 ↔
      ({ price := some 5 } : Item) ∈ [({ price := some 5 } : Item)] ∧
        (5 : ℚ) ≤ 5 ∧ (5 : ℚ) ≤ 5) :=
  ⟨rfl, C5_find_by_price_inclusive [{ price := some 5 }] 5 5 5 { price := some 5 } rfl⟩

/-! ### Claim C10 -/

/-- C10: deleting a nonexistent item under an existing order returns 204
and leaves the whole store unchanged. -/
theorem C10_delete_missing_item_noop (db : DB) (oid iid : Int) (o : Order)
    (ho : Order.find db oid = some o) (hi : Item.find db iid = none) :
    delete_items db oid iid = (HResult.empty 204, db) := by
  simp [delete_items, ho, hi]

/-- C10, witness: order 1 exists in `dbStray`, item 5 does not. -/
theorem C10_delete_missing_item_noop_witness :
    Order.find dbStray 1 = some orderRow1 ∧
    Item.find dbStray 5 = none ∧
    delete_items dbStray 1 5 = (HResult.empty 204, dbStray) :=
  ⟨by decide, by decide, C10_delete_missing_item_noop dbStray 1 5 orderRow1 (by decide) (by decide)⟩

/-! ### Claim C4 -/

/-- C4, counterexample: the 404 for a missing *order* in `get_orders` calls
the entity an Item: the message contains the word stem of Item and not the
word stem of order, so the kind named is not the correct one. -/
theorem C4_cex :
    get_orders {} 7 =
      HResult.aborted 404 ("Item with id " ++ quoted 7 ++ " was not found.") ∧
    hasSub ("rder").data ("Item with id " ++ quoted 7 ++ " was not found.").data = false ∧
    hasSub ("tem").data ("Item with id " ++ quoted 7 ++ " was not found.").data = true := by
  exact ⟨rfl, by decide, by decide⟩

/-- C4, amended: every not-found failure responds 404 with a message naming
the missing id, but the entity kind in the message is not always the
correct one: `get_orders` labels a missing order an Item, and `update_item`
labels a missing order an Item and a missing item an Order, while
`delete_orders`, `list_item`, `delete_items`, `create_items` and
`update_orders` label the missing entity correctly. -/
theorem C4_notfound_messages (db : DB) (oid iid : Int) (h : Headers)
    (odata : OrderDict) (idata : ItemDict)
    (hct : h.content_type = some ("application/json")) :
    (Order.find db oid = none →
      get_orders db oid =
        HResult.aborted 404 ("Item with id " ++ quoted oid ++ " was not found.") ∧
      (delete_orders db oid).1 =
        HResult.aborted 404 ("Order with id " ++ quoted oid ++ " was not found.") ∧
      list_item db oid iid =
        HResult.aborted 404 ("Order with id " ++ quoted oid ++ " was not found.") ∧
      (delete_items db oid iid).1 =
        HResult.aborted 404 ("Order with id " ++ quoted oid ++ " was not found.") ∧
      (create_items db h oid idata).1 =
        HResult.aborted 404 ("Order with id " ++ quoted oid ++ " was not found.") ∧
      (update_orders db h oid odata).1 =
        HResult.aborted 404 ("Order with id " ++ quoted oid ++ " was not found.") ∧
      (update_item db h oid iid idata).1 =
        HResult.aborted 404 ("Item with id " ++ quoted oid ++ " was not found.")) ∧
    (∀ o : Order, Order.find db oid = some o → Item.find db iid = none →
      list_item db oid iid =
        HResult.aborted 404 ("Item with id " ++ quoted iid ++ " was not found.") ∧
      (update_item db h oid iid idata).1 =
        HResult.aborted 404 ("Order with id " ++ quoted iid ++ " could not be found.")) := by
  constructor
  · intro hno
    refine ⟨?_, ?_, ?_, ?_, ?_, ?_, ?_⟩ <;>
      simp [get_orders, delete_orders, list_item, delete_items, create_items,
        update_orders, update_item, check_content_type, hct, hno]
  · intro o ho hi
    constructor <;>
      simp [list_item, update_item, check_content_type, hct, ho, hi]

/-- C4, witness: the missing-order branch at the empty store, and the
missing-item branch at `dbStray`. -/
theorem C4_notfound_messages_witness :
    (Order.find ({} : DB) 7 = none ∧
      get_orders {} 7 =
        HResult.aborted 404 ("Item with id " ++ quoted 7 ++ " was not found.")) ∧
    (Order.find dbStray 1 = some orderRow1 ∧ Item.find dbStray 5 = none ∧
      (update_item dbStray jsonHeaders 1 5 {}).1 =
        HResult.aborted 404 ("Order with id " ++ quoted 5 ++ " could not be found.")) :=
  ⟨⟨rfl, ((C4_notfound_messages {} 7 5 jsonHeaders {} {} rfl).1 rfl).1⟩,
   ⟨by decide, by decide,
    ((C4_notfound_messages dbStray 1 5 jsonHeaders {} {} rfl).2 orderRow1
      (by decide) (by decide)).2⟩⟩

/-! ### Claim C7 -/

/-- C7: on every POST/PUT handler, a missing or non-`application/json`
`Content-Type` header yields the 415 response and the store is returned
unchanged (the check runs before any persistence operation). -/
theorem C7_content_type_checked_first (db : DB) (h : Headers) (oid iid : Int)
    (odata : OrderDict) (idata : ItemDict)
    (hct : h.content_type ≠ some ("application/json")) :
    create_orders db h odata =
      (HResult.aborted 415 ("Content-Type must be application/json"), db) ∧
    update_orders db h oid odata =
      (HResult.aborted 415 ("Content-Type must be application/json"), db) ∧
    create_items db h oid idata =
      (HResult.aborted 415 ("Content-Type must be application/json"), db) ∧
    update_item db h oid iid idata =
      (HResult.aborted 415 ("Content-Type must be application/json"), db) := by
  have hcc : check_content_type h =
      some (HResult.aborted 415 ("Content-Type must be application/json")) := by
    unfold check_content_type
    cases hx : h.content_type with
    | none => rfl
    | some ct =>
      have hne : ¬ ct = "application/json" := by
        intro hc
        exact hct (by rw [hx, hc])
      simp [hne]
  refine ⟨?_, ?_, ?_, ?_⟩ <;>
    simp [create_orders, update_orders, create_items, update_item, hcc]

/-- C7, witness at a wrong content type on the store holding order 1. -/
theorem C7_content_type_checked_first_witness :
    (Headers.content_type { content_type := some ("text/html") } ≠
      some ("application/json")) ∧
    create_orders dbResidue { content_type := some ("text/html") } {} =
      (HResult.aborted 415 ("Content-Type must be application/json"), dbResidue) ∧
    update_orders dbResidue { content_type := some ("text/html") } 1 {} =
      (HResult.aborted 415 ("Content-Type must be application/json"), dbResidue) ∧
    create_items dbResidue { content_type := some ("text/html") } 1 {} =
      (HResult.aborted 415 ("Content-Type must be application/json"), dbResidue) ∧
    update_item dbResidue { content_type := some ("text/html") } 1 10 {} =
      (HResult.aborted 415 ("Content-Type must be application/json"), dbResidue) :=
  ⟨by decide,
   C7_content_type_checked_first dbResidue { content_type := some ("text/html") }
     1 10 {} {} (by decide)⟩

/-! ### Claim C9 -/

/-- C9: the nested item routes only check that the order exists, never that
the item belongs to it: for an existing order and an existing item whose
`order_id` differs from the order's id, `GET` still returns 200 with the
serialized item, and `DELETE` deletes the item and returns 204. -/
theorem C9_no_membership_check (db : DB) (oid iid : Int) (o : Order) (it : Item)
    (ho : Order.find db oid = some o) (hi : Item.find db iid = some it)
    (hne : it.order_id ≠ some oid) :
    list_item db oid iid = HResult.itemBody 200 it.serialize ∧
    delete_items db oid iid =
      (HResult.empty 204,
        { db with items := db.items.filter (fun x => !(x.id == some iid)) }) ∧
    Item.find
      { db with items := db.items.filter (fun x => !(x.id == some iid)) } iid =
      none := by
  refine ⟨?_, ?_, ?_⟩
  · simp [list_item, ho, hi]
  · simp [delete_items, ho, hi]
  · rw [Item.find, List.find?_eq_none]
    intro x hx
    rw [List.mem_filter] at hx
    simpa using hx.2

/-- C9, witness: in `dbStray`, item 10 belongs to order 2, yet the nested
routes under order 1 serve and delete it. -/
theorem C9_no_membership_check_witness :
    Order.find dbStray 1 = some orderRow1 ∧
    Item.find dbStray 10 = some { item10 with order_id := some 2 } ∧
    (Item.order_id { item10 with order_id := some 2 } ≠ some 1) ∧
    (list_item dbStray 1 10 =
      HResult.itemBody 200 (Item.serialize { item10 with order_id := some 2 }) ∧
    delete_items dbStray 1 10 =
      (HResult.empty 204,
        { dbStray with
          items := dbStray.items.filter (fun x => !(x.id == some 10)) }) ∧
    Item.find
      { dbStray with
        items := dbStray.items.filter (fun x => !(x.id == some 10)) } 10 = none) :=
  ⟨by decide, by decide, by decide,
   C9_no_membership_check dbStray 1 10 orderRow1 { item10 with order_id := some 2 }
     (by decide) (by decide) (by decide)⟩

/-! ### Claim C2 -/

/-- C2, counterexample: with order 5 existing, posting the scenario body
(exactly the keys `product_id`, `price`, `quantity`, `status`) does not
produce 201: `Item.deserialize` also demands the `id` key, so the handler
raises the validation error and the store is unchanged. -/
theorem C2_cex :
    create_items dbOrder5 jsonHeaders 5 scenarioItemPayload =
      (HResult.raised (DesErr.validation ("Invalid Item: missing id")), dbOrder5) := by
  decide

/-- C2, amended: when the order exists and the payload carries *all six*
keys `id`, `product_id`, `price`, `quantity`, `order_id`, `status` (the
scenario body extended with `id` and `order_id`), `POST
/orders/{id}/items` succeeds with 201 and the body carries the
store-assigned id and an `order_id` equal to the path's order id. -/
theorem C2_create_item_full_payload (db : DB) (h : Headers) (oid : Int)
    (data : ItemDict) (o : Order) (i0 : Item)
    (hct : h.content_type = some ("application/json"))
    (ho : Order.find db oid = some o)
    (hdes : Item.deserialize {} data = Except.ok i0) :
    create_items db h oid data =
      (HResult.itemBody 201
        (Item.serialize
          { i0 with order_id := some oid, id := some db.next_item_id }),
       { db with
         items := db.items ++
           [{ i0 with order_id := some oid, id := some db.next_item_id }],
         next_item_id := db.next_item_id + 1 }) := by
  simp [create_items, check_content_type, hct, ho, hdes]

/-- C2, witness: the scenario at order 5 with the payload extended by null
`id` and `order_id`; the response carries the assigned id 1 and
`order_id` 5. -/
theorem C2_create_item_full_payload_witness :
    (Headers.content_type jsonHeaders = some ("application/json")) ∧
    Order.find dbOrder5 5 =
      some { id := some 5, name := some ("n"), address := some ("a"),
             date_created := some ⟨2024, 1, 1⟩ } ∧
    Item.deserialize {} fullItemPayload =
      Except.ok { id := none, product_id := some 7, price := some (999 / 100),
                  quantity := some 2, order_id := none,
                  status := some ("pending") } ∧
    create_items dbOrder5 jsonHeaders 5 fullItemPayload =
      (HResult.itemBody 201
        (Item.serialize
          { id := some 1, product_id := some 7, price := some (999 / 100),
            quantity := some 2, order_id := some 5,
            status := some ("pending") }),
       { dbOrder5 with
         items := [{ id := some 1, product_id := some 7,
                     price := some (999 / 100), quantity := some 2,
                     order_id := some 5, status := some ("pending") }],
         next_item_id := 2 }) :=
  ⟨rfl, by decide, rfl,
   C2_create_item_full_payload dbOrder5 jsonHeaders 5 fullItemPayload
     { id := some 5, name := some ("n"), address := some ("a"),
       date_created := some ⟨2024, 1, 1⟩ }
     { id := none, product_id := some 7, price := some (999 / 100),
       quantity := some 2, order_id := none, status := some ("pending") }
     rfl (by decide) rfl⟩

/-! ### Claim C6 -/

/-- C6: round-trip.  Deserializing `serialize x` into a fresh record
recovers `x` exactly for items (all six fields, id included), and for
orders recovers every field except `id` (which a fresh record leaves
unset); in particular the ISO-rendered date parses back to the original
date, so there is no date-formatting loss either. -/
theorem C6_roundtrip :
    (∀ x y : Item, Item.deserialize y (Item.serialize x) = Except.ok x) ∧
    (∀ (o : Order) (d : Date), o.date_created = some d → d.valid = true →
      ∃ dict, o.serialize = some dict ∧
        Order.deserialize {} dict = Except.ok { o with id := none }) := by
  constructor
  · intro x y
    exact Item.deserialize_serialize x y
  · intro o d hd hv
    refine ⟨{ id := some o.id, name := some o.name, address := some o.address,
              date_created := some d.isoformat,
              items := some (o.items.map Item.serialize) }, ?_, ?_⟩
    · simp [Order.serialize, hd]
    · simp [Order.deserialize, fromisoformat_isoformat d hv,
        desItems_map_serialize, hd]

/-- C6, witness: a concrete populated order and item round-trip. -/
theorem C6_roundtrip_witness :
    Item.deserialize {} (Item.serialize item10) = Except.ok item10 ∧
    (Order.date_created { orderRow1 with items := [item10] } = some ⟨2020, 1, 2⟩) ∧
    Date.valid ⟨2020, 1, 2⟩ = true ∧
    (∃ dict, Order.serialize { orderRow1 with items := [item10] } = some dict ∧
      Order.deserialize {} dict =
        Except.ok { orderRow1 with id := none, items := [item10] }) :=
  ⟨C6_roundtrip.1 item10 {}, rfl, by decide,
   C6_roundtrip.2 { orderRow1 with items := [item10] } ⟨2020, 1, 2⟩ rfl (by decide)⟩

/-! ### Claim C8 -/

/-- C8, counterexample: order 1 owns item 10; a valid PUT payload carrying
`items: []` (and no `date_created`) should, per the claim, leave the stored
order with an empty item collection and no residue of the old state — yet
after the update the stored order still carries item 10, and its
`date_created` is still the old date. -/
theorem C8_cex :
    (Order.find (update_orders dbResidue jsonHeaders 1 renamePayload).2 1).map
        Order.items = some [item10] ∧
    [item10] ≠ ([] : List Item) ∧
    (Order.find (update_orders dbResidue jsonHeaders 1 renamePayload).2 1).map
        Order.date_created = some (some ⟨2020, 1, 2⟩) := by
  refine ⟨by decide, by decide, by decide⟩

/-- C8, amended: `PUT /orders/{id}` overwrites `name` and `address` from
the payload, but `date_created` is overwritten only when the payload
supplies it (otherwise the stored date survives), and the payload's items
are *appended* to the order's existing item collection — both in the 200
response body and in the store — rather than replacing it. -/
theorem C8_update_appends (db : DB) (h : Headers) (oid : Int) (data : OrderDict)
    (o : Order) (nm ad : Option String) (dt : Date) (newIts : List Item)
    (hct : h.content_type = some ("application/json"))
    (ho : Order.find db oid = some o)
    (hnm : data.name = some nm) (had : data.address = some ad)
    (hdate : data.date_created = none)
    (hits : desItems (data.items.getD []) = Except.ok newIts)
    (hod : o.date_created = some dt) :
    update_orders db h oid data =
      (HResult.orderBody 200
        { id := some (some oid), name := some nm, address := some ad,
          date_created := some dt.isoformat,
          items := some
            ((o.items ++ (flushNewItems db.next_item_id oid newIts).1).map
              Item.serialize) },
       { db with
         orders := db.orders.map (fun r =>
           if r.id == some oid then
             { r with name := nm, address := ad, date_created := some dt }
           else r),
         items := db.items ++ (flushNewItems db.next_item_id oid newIts).1,
         next_item_id := (flushNewItems db.next_item_id oid newIts).2 }) := by
  have hdes : Order.deserialize o data =
      Except.ok { o with name := nm, address := ad, items := o.items ++ newIts } := by
    simp [Order.deserialize, hnm, had, hdate, hits]
  simp [update_orders, check_content_type, hct, ho, hdes, List.drop_left,
    Order.serialize, hod]

/-- C8, witness: renaming order 1 (which owns item 10) with an empty
payload item list: the response and the store keep item 10 appended-to, the
scalar columns are overwritten, the date survives. -/
theorem C8_update_appends_witness :
    Order.find dbResidue 1 = some { orderRow1 with items := [item10] } ∧
    (OrderDict.name renamePayload = some (some ("new"))) ∧
    (OrderDict.address renamePayload = some (some ("newa"))) ∧
    OrderDict.date_created renamePayload = none ∧
    desItems ((OrderDict.items renamePayload).getD []) = Except.ok [] ∧
    (Order.date_created { orderRow1 with items := [item10] } = some ⟨2020, 1, 2⟩) ∧
    update_orders dbResidue jsonHeaders 1 renamePayload =
      (HResult.orderBody 200
        { id := some (some 1), name := some (some ("new")),
          address := some (some ("newa")),
          date_created := some (Date.isoformat ⟨2020, 1, 2⟩),
          items := some
            (([item10] ++ (flushNewItems 11 1 []).1).map Item.serialize) },
       { dbResidue with
         orders := dbResidue.orders.map (fun r =>
           if r.id == some 1 then
             { r with name := some ("new"), address := some ("newa"),
                      date_created := some ⟨2020, 1, 2⟩ }
           else r),
         items := dbResidue.items ++ (flushNewItems 11 1 []).1,
         next_item_id := (flushNewItems 11 1 []).2 }) :=
  ⟨by decide, rfl, rfl, rfl, rfl, rfl,
   C8_update_appends dbResidue jsonHeaders 1 renamePayload
     { orderRow1 with items := [item10] } (some ("new")) (some ("newa"))
     ⟨2020, 1, 2⟩ [] rfl (by decide) rfl rfl rfl rfl rfl⟩

end OrdersService
